import Mathlib

/-!
Verification of the LinkedIn MCP server (src/src/index.ts, hand-rolled variant).

The development shallow-embeds the dispatcher/validator and the response
shaper of the server.  JavaScript argument objects become association lists
of JSValues; JavaScript truthiness is modelled explicitly; the axios query
serialization drops keys whose value is undefined, so an absent argument
simply never reaches the outbound query.  Fallible handler code returns
Except, mirroring thrown errors; the catch-all in setupToolHandlers wraps a
plain Error into an McpError with code InternalError and a message prefixed
with the HarvestAPI tag.
-/

namespace LinkedInMcp

/-- A JavaScript argument value as it appears in a tool invocation.  The
model restricts numbers to nonnegative integers, which covers every numeric
parameter of the server (pages and item caps). -/
inductive JSVal where
  | str (s : String)
  | num (n : Nat)
  | bool (b : Bool)
deriving DecidableEq, Repr

/-- JavaScript truthiness of a value: empty strings, zero and false are
falsy, everything else is truthy. -/
def JSVal.truthy : JSVal → Bool
  | .str s => s != ""
  | .num n => n != 0
  | .bool b => b

/-- The flat argument object delivered with a tool call. -/
abbrev Args := List (String × JSVal)

/-- Reading a property of the argument object; a missing key is undefined. -/
def getArg (args : Args) (k : String) : Option JSVal :=
  List.lookup k args

/-- Truthiness of a possibly-undefined value: undefined is falsy. -/
def truthyOpt : Option JSVal → Bool
  | some v => v.truthy
  | none => false

/-- The outbound query parameters of one HTTP request. -/
abbrev Params := List (String × JSVal)

/-- One conditional parameter assignment of the form
if (args.k) params.k = args.k: the key is added only when the argument is
present and truthy. -/
def optEntry (k : String) (v : Option JSVal) : Params :=
  match v with
  | some x => if x.truthy then [(k, x)] else []
  | none => []

/-- One unconditional parameter assignment of the form params.k = args.k
(object literal, or a guard of the form args.k !== undefined): the key
reaches the wire whenever the argument is defined, axios drops an undefined
value from the query string. -/
def defEntry (k : String) (v : Option JSVal) : Params :=
  match v with
  | some x => [(k, x)]
  | none => []

/-- How one handler line moves an argument into the query: tk is the truthy
guard if (args.k), dk is the defined guard. -/
inductive EntryKind where
  | tk
  | dk
deriving DecidableEq, Repr

/-- Dispatch on the entry kind. -/
def entryFor : EntryKind → String → Option JSVal → Params
  | .tk => optEntry
  | .dk => defEntry

/-- Parameter assembly of one handler: the listed keys are read from the
argument object in source order, each through its guard. -/
def buildParams (spec : List (String × EntryKind)) (args : Args) : Params :=
  match spec with
  | [] => []
  | (k, kind) :: rest => entryFor kind k (getArg args k) ++ buildParams rest args

/-- One outbound HTTP request: the endpoint sub-path and the query. -/
structure Request where
  endpoint : String
  params : Params
deriving DecidableEq, Repr

/-- The MCP error codes of the SDK. -/
inductive ErrorCode where
  | ParseError
  | InvalidRequest
  | MethodNotFound
  | InvalidParams
  | InternalError
deriving DecidableEq, Repr

/-- A structured MCP error as surfaced to the calling agent. -/
structure McpError where
  code : ErrorCode
  message : String
deriving DecidableEq, Repr

/-- The wrapped form a plain thrown Error takes after the catch-all of
setupToolHandlers: an internal error carrying the HarvestAPI prefix. -/
def apiErr (m : String) : McpError :=
  ⟨.InternalError, "HarvestAPI error: " ++ m⟩

/-- The catch-all of setupToolHandlers: a plain thrown Error is re-wrapped
as an internal error with the HarvestAPI prefix. -/
def wrapErr : Except String Request → Except McpError Request
  | .ok r => .ok r
  | .error m => .error (apiErr m)

/-- The value under which one assembly entry stores an argument: a truthy
guard keeps only truthy values, a defined guard keeps any defined value. -/
def entryLookupVal : EntryKind → Option JSVal → Option JSVal
  | .tk, some x => if x.truthy then some x else none
  | .tk, none => none
  | .dk, w => w

/-- Keys of getProfile parameter assembly (lines 632-637). -/
def getProfileSpec : List (String × EntryKind) :=
  [("url", .tk), ("publicIdentifier", .tk), ("profileId", .tk),
   ("findEmail", .tk), ("includeAboutProfile", .tk)]

/-- getProfile up to its HTTP call: assemble params, then reject when none
of url, publicIdentifier, profileId made it into the query. -/
def getProfileRequest (args : Args) : Except String Request :=
  let ps := buildParams getProfileSpec args
  if !truthyOpt (List.lookup "url" ps) && !truthyOpt (List.lookup "publicIdentifier" ps)
      && !truthyOpt (List.lookup "profileId" ps) then
    .error "At least one of url, publicIdentifier, or profileId is required"
  else
    .ok ⟨"/profile", ps⟩

/-- Keys of searchProfiles parameter assembly (lines 661-671); search is set
unconditionally by the object literal. -/
def searchProfilesSpec : List (String × EntryKind) :=
  [("search", .dk), ("currentCompany", .tk), ("pastCompany", .tk), ("school", .tk),
   ("firstName", .tk), ("lastName", .tk), ("title", .tk), ("location", .tk),
   ("geoId", .tk), ("industryId", .tk), ("page", .tk)]

/-- searchProfiles up to its HTTP call: no validation is performed. -/
def searchProfilesRequest (args : Args) : Except String Request :=
  .ok ⟨"/profile-search", buildParams searchProfilesSpec args⟩

/-- Keys of getProfilePosts parameter assembly (lines 687-692). -/
def getProfilePostsSpec : List (String × EntryKind) :=
  [("profile", .tk), ("profileId", .tk), ("profilePublicIdentifier", .tk),
   ("postedLimit", .tk), ("page", .tk), ("paginationToken", .tk)]

/-- getProfilePosts up to its HTTP call. -/
def getProfilePostsRequest (args : Args) : Except String Request :=
  let ps := buildParams getProfilePostsSpec args
  if !truthyOpt (List.lookup "profile" ps) && !truthyOpt (List.lookup "profileId" ps)
      && !truthyOpt (List.lookup "profilePublicIdentifier" ps) then
    .error "At least one of profile, profileId, or profilePublicIdentifier is required"
  else
    .ok ⟨"/profile-posts", ps⟩

/-- Keys of getProfileComments parameter assembly (lines 712-716). -/
def getProfileCommentsSpec : List (String × EntryKind) :=
  [("profile", .tk), ("profileId", .tk), ("postedLimit", .tk),
   ("page", .tk), ("paginationToken", .tk)]

/-- getProfileComments up to its HTTP call. -/
def getProfileCommentsRequest (args : Args) : Except String Request :=
  let ps := buildParams getProfileCommentsSpec args
  if !truthyOpt (List.lookup "profile" ps) && !truthyOpt (List.lookup "profileId" ps) then
    .error "At least one of profile or profileId is required"
  else
    .ok ⟨"/profile-comments", ps⟩

/-- Keys of getProfileReactions parameter assembly (lines 735-739). -/
def getProfileReactionsSpec : List (String × EntryKind) :=
  [("profile", .tk), ("profileId", .tk), ("page", .tk), ("paginationToken", .tk)]

/-- getProfileReactions up to its HTTP call. -/
def getProfileReactionsRequest (args : Args) : Except String Request :=
  let ps := buildParams getProfileReactionsSpec args
  if !truthyOpt (List.lookup "profile" ps) && !truthyOpt (List.lookup "profileId" ps) then
    .error "At least one of profile or profileId is required"
  else
    .ok ⟨"/profile-reactions", ps⟩

/-- Keys of getCompany parameter assembly (lines 759-762). -/
def getCompanySpec : List (String × EntryKind) :=
  [("url", .tk), ("universalName", .tk), ("search", .tk)]

/-- getCompany up to its HTTP call. -/
def getCompanyRequest (args : Args) : Except String Request :=
  let ps := buildParams getCompanySpec args
  if !truthyOpt (List.lookup "url" ps) && !truthyOpt (List.lookup "universalName" ps)
      && !truthyOpt (List.lookup "search" ps) then
    .error "At least one of url, universalName, or search is required"
  else
    .ok ⟨"/company", ps⟩

/-- Keys of searchCompanies parameter assembly (lines 779-783). -/
def searchCompaniesSpec : List (String × EntryKind) :=
  [("search", .dk), ("location", .tk), ("geoId", .tk), ("companySize", .tk), ("page", .tk)]

/-- searchCompanies up to its HTTP call: no validation is performed. -/
def searchCompaniesRequest (args : Args) : Except String Request :=
  .ok ⟨"/company-search", buildParams searchCompaniesSpec args⟩

/-- Keys of getCompanyPosts parameter assembly (lines 798-804). -/
def getCompanyPostsSpec : List (String × EntryKind) :=
  [("company", .tk), ("companyId", .tk), ("companyUniversalName", .tk),
   ("postedLimit", .tk), ("page", .tk), ("paginationToken", .tk)]

/-- getCompanyPosts up to its HTTP call. -/
def getCompanyPostsRequest (args : Args) : Except String Request :=
  let ps := buildParams getCompanyPostsSpec args
  if !truthyOpt (List.lookup "company" ps) && !truthyOpt (List.lookup "companyId" ps)
      && !truthyOpt (List.lookup "companyUniversalName" ps) then
    .error "At least one of company, companyId, or companyUniversalName is required"
  else
    .ok ⟨"/company-posts", ps⟩

/-- Keys of getJob parameter assembly (lines 824-826). -/
def getJobSpec : List (String × EntryKind) :=
  [("jobId", .tk), ("url", .tk)]

/-- getJob up to its HTTP call. -/
def getJobRequest (args : Args) : Except String Request :=
  let ps := buildParams getJobSpec args
  if !truthyOpt (List.lookup "jobId" ps) && !truthyOpt (List.lookup "url" ps) then
    .error "At least one of jobId or url is required"
  else
    .ok ⟨"/job", ps⟩

/-- Keys of searchJobs parameter assembly (lines 843-858); easyApply is
guarded by a defined check, everything else by truthiness. -/
def searchJobsSpec : List (String × EntryKind) :=
  [("search", .tk), ("companyId", .tk), ("location", .tk), ("geoId", .tk),
   ("sortBy", .tk), ("workplaceType", .tk), ("employmentType", .tk), ("salary", .tk),
   ("postedLimit", .tk), ("experienceLevel", .tk), ("industryId", .tk),
   ("functionId", .tk), ("under10Applicants", .tk), ("easyApply", .dk), ("page", .tk)]

/-- The searchJobs outbound query. -/
def searchJobsParams (args : Args) : Params :=
  buildParams searchJobsSpec args

/-- searchJobs up to its HTTP call: no validation is performed. -/
def searchJobsRequest (args : Args) : Except String Request :=
  .ok ⟨"/job-search", searchJobsParams args⟩

/-- Keys of getPost parameter assembly (line 874): the object literal sets
url unconditionally. -/
def getPostSpec : List (String × EntryKind) :=
  [("url", .dk)]

/-- getPost up to its HTTP call: no validation is performed. -/
def getPostRequest (args : Args) : Except String Request :=
  .ok ⟨"/post", buildParams getPostSpec args⟩

/-- Keys of searchPosts parameter assembly (lines 885-897). -/
def searchPostsSpec : List (String × EntryKind) :=
  [("search", .tk), ("profile", .tk), ("profileId", .tk), ("company", .tk),
   ("companyId", .tk), ("authorsCompany", .tk), ("authorsCompanyId", .tk),
   ("group", .tk), ("postedLimit", .tk), ("sortBy", .tk), ("page", .tk),
   ("paginationToken", .tk)]

/-- searchPosts up to its HTTP call: no validation is performed. -/
def searchPostsRequest (args : Args) : Except String Request :=
  .ok ⟨"/post-search", buildParams searchPostsSpec args⟩

/-- Keys of getPostComments parameter assembly (lines 912-915): the object
literal sets post unconditionally and nothing checks it. -/
def getPostCommentsSpec : List (String × EntryKind) :=
  [("post", .dk), ("sortBy", .tk), ("page", .tk), ("paginationToken", .tk)]

/-- getPostComments up to its HTTP call: no validation is performed. -/
def getPostCommentsRequest (args : Args) : Except String Request :=
  .ok ⟨"/post-comments", buildParams getPostCommentsSpec args⟩

/-- Keys of getPostReactions parameter assembly (lines 930-931). -/
def getPostReactionsSpec : List (String × EntryKind) :=
  [("post", .dk), ("page", .tk)]

/-- getPostReactions up to its HTTP call: no validation is performed. -/
def getPostReactionsRequest (args : Args) : Except String Request :=
  .ok ⟨"/post-reactions", buildParams getPostReactionsSpec args⟩

/-- Keys of getGroup parameter assembly (lines 947-949). -/
def getGroupSpec : List (String × EntryKind) :=
  [("url", .tk), ("groupId", .tk)]

/-- getGroup up to its HTTP call. -/
def getGroupRequest (args : Args) : Except String Request :=
  let ps := buildParams getGroupSpec args
  if !truthyOpt (List.lookup "url" ps) && !truthyOpt (List.lookup "groupId" ps) then
    .error "At least one of url or groupId is required"
  else
    .ok ⟨"/group", ps⟩

/-- Keys of searchGroups parameter assembly (lines 966-967). -/
def searchGroupsSpec : List (String × EntryKind) :=
  [("search", .dk), ("page", .tk)]

/-- searchGroups up to its HTTP call: no validation is performed. -/
def searchGroupsRequest (args : Args) : Except String Request :=
  .ok ⟨"/group-search", buildParams searchGroupsSpec args⟩

/-- Keys of searchGeoId parameter assembly (line 983). -/
def searchGeoIdSpec : List (String × EntryKind) :=
  [("search", .dk)]

/-- searchGeoId up to its HTTP call: no validation is performed. -/
def searchGeoIdRequest (args : Args) : Except String Request :=
  .ok ⟨"/geo-id-search", buildParams searchGeoIdSpec args⟩

/-- The CallToolRequestSchema handler up to the HTTP call: a missing
argument object is rejected with InvalidParams, an unknown name with
MethodNotFound, and a plain Error thrown inside a handler is wrapped by the
catch-all as InternalError with the HarvestAPI prefix.  An ok result is the
single outbound request the dispatch would perform; an error result is
surfaced before any HTTP traffic. -/
def dispatchRequest (name : String) (args? : Option Args) : Except McpError Request :=
  match args? with
  | none => .error ⟨.InvalidParams, "Missing arguments"⟩
  | some args =>
    match name with
    | "get_profile" => wrapErr (getProfileRequest args)
    | "search_profiles" => wrapErr (searchProfilesRequest args)
    | "get_profile_posts" => wrapErr (getProfilePostsRequest args)
    | "get_profile_comments" => wrapErr (getProfileCommentsRequest args)
    | "get_profile_reactions" => wrapErr (getProfileReactionsRequest args)
    | "get_company" => wrapErr (getCompanyRequest args)
    | "search_companies" => wrapErr (searchCompaniesRequest args)
    | "get_company_posts" => wrapErr (getCompanyPostsRequest args)
    | "get_job" => wrapErr (getJobRequest args)
    | "search_jobs" => wrapErr (searchJobsRequest args)
    | "get_post" => wrapErr (getPostRequest args)
    | "search_posts" => wrapErr (searchPostsRequest args)
    | "get_post_comments" => wrapErr (getPostCommentsRequest args)
    | "get_post_reactions" => wrapErr (getPostReactionsRequest args)
    | "get_group" => wrapErr (getGroupRequest args)
    | "search_groups" => wrapErr (searchGroupsRequest args)
    | "search_geo_id" => wrapErr (searchGeoIdRequest args)
    | _ => .error ⟨.MethodNotFound, "Unknown tool: " ++ name⟩

/-- JavaScript a || b for two strings where a may be undefined and the
result is a string: an absent or empty a falls through to b. -/
def jsOr (a : Option String) (b : String) : String :=
  match a with
  | some s => if s == "" then b else s
  | none => b

/-- JavaScript a || b where both sides may be undefined: an absent or empty
a yields b unchanged (which may itself be undefined or empty). -/
def jsOrOpt (a b : Option String) : Option String :=
  match a with
  | some s => if s == "" then b else s
  | none => b

/-- A raw date object of the remote API, carrying a display text and a year. -/
structure RawDate where
  text : Option String := none
  year : Option Nat := none
deriving DecidableEq, Repr

/-- A raw experience entry of a profile. -/
structure RawExperience where
  position : Option String := none
  companyName : Option String := none
  location : Option String := none
  duration : Option String := none
  startDate : Option RawDate := none
  endDate : Option RawDate := none
  description : Option String := none
deriving DecidableEq, Repr

/-- A shaped experience entry as produced by cleanProfile. -/
structure CleanedExperience where
  position : Option String := none
  company : Option String := none
  location : Option String := none
  duration : Option String := none
  startDate : Option String := none
  endDate : Option String := none
  description : Option String := none
deriving DecidableEq, Repr

/-- The per-entry experience projection of cleanProfile (lines 26-34). -/
def cleanExperience (e : RawExperience) : CleanedExperience :=
  { position := e.position
    company := e.companyName
    location := e.location
    duration := e.duration
    startDate := e.startDate.bind (fun d => d.text)
    endDate := e.endDate.bind (fun d => d.text)
    description := e.description }

/-- A raw education entry of a profile. -/
structure RawEducation where
  schoolName : Option String := none
  title : Option String := none
  degree : Option String := none
  fieldOfStudy : Option String := none
  period : Option String := none
  startDate : Option RawDate := none
  endDate : Option RawDate := none
deriving DecidableEq, Repr

/-- A shaped education entry as produced by cleanProfile. -/
structure CleanedEducation where
  school : Option String := none
  degree : Option String := none
  field : Option String := none
  period : String := ""
deriving DecidableEq, Repr

/-- The interpolation of an optional year into the fallback period string:
an absent year (and, by JS truthiness, a zero year) prints as empty. -/
def yearStr (d : Option RawDate) : String :=
  match d.bind (fun x => x.year) with
  | some n => if n == 0 then "" else toString n
  | none => ""

/-- The replace of the period fallback: the regex removes one leading and
one trailing dash from the composed year range. -/
def trimEdgeDashes (s : String) : String :=
  let a := if s.startsWith "-" then s.drop 1 else s
  if a.endsWith "-" then a.dropRight 1 else a

/-- The per-entry education projection of cleanProfile (lines 35-40). -/
def cleanEducation (e : RawEducation) : CleanedEducation :=
  { school := jsOrOpt e.schoolName e.title
    degree := e.degree
    field := e.fieldOfStudy
    period := jsOr e.period
      (trimEdgeDashes (yearStr e.startDate ++ "-" ++ yearStr e.endDate)) }

/-- A raw skill entry. -/
structure RawSkill where
  name : Option String := none
deriving DecidableEq, Repr

/-- A raw certification entry. -/
structure RawCertification where
  title : Option String := none
  issuedBy : Option String := none
  issuedAt : Option String := none
deriving DecidableEq, Repr

/-- A shaped certification entry. -/
structure CleanedCertification where
  title : Option String := none
  issuedBy : Option String := none
  issuedAt : Option String := none
deriving DecidableEq, Repr

/-- The per-entry certification projection of cleanProfile (lines 42-46). -/
def cleanCertification (c : RawCertification) : CleanedCertification :=
  { title := c.title, issuedBy := c.issuedBy, issuedAt := c.issuedAt }

/-- The JS string trim applied to the concatenated name: whitespace is
stripped from both ends. -/
def jsTrim (s : String) : String :=
  ⟨((s.data.dropWhile Char.isWhitespace).reverse.dropWhile Char.isWhitespace).reverse⟩

/-- A raw nested location text object. -/
structure RawLocationText where
  linkedinText : Option String := none
deriving DecidableEq, Repr

/-- A raw nested profile picture object. -/
structure RawPicture where
  url : Option String := none
deriving DecidableEq, Repr

/-- A raw profile element of the remote API, restricted to the fields
cleanProfile reads. -/
structure RawProfile where
  id : Option String := none
  publicIdentifier : Option String := none
  linkedinUrl : Option String := none
  firstName : Option String := none
  lastName : Option String := none
  headline : Option String := none
  about : Option String := none
  location : Option RawLocationText := none
  photo : Option String := none
  profilePicture : Option RawPicture := none
  premium : Option Bool := none
  influencer : Option Bool := none
  verified : Option Bool := none
  openToWork : Option Bool := none
  hiring : Option Bool := none
  connectionsCount : Option Nat := none
  followerCount : Option Nat := none
  experience : Option (List RawExperience) := none
  education : Option (List RawEducation) := none
  skills : Option (List RawSkill) := none
  certifications : Option (List RawCertification) := none
deriving DecidableEq, Repr

/-- The shaped profile record produced by cleanProfile. -/
structure CleanedProfile where
  id : Option String := none
  publicIdentifier : Option String := none
  linkedinUrl : Option String := none
  name : String := ""
  headline : Option String := none
  about : Option String := none
  location : Option String := none
  photo : Option String := none
  premium : Option Bool := none
  influencer : Option Bool := none
  verified : Option Bool := none
  openToWork : Option Bool := none
  hiring : Option Bool := none
  connections : Option Nat := none
  followers : Option Nat := none
  experience : List CleanedExperience := []
  education : List CleanedEducation := []
  skills : List (Option String) := []
  certifications : List CleanedCertification := []
deriving DecidableEq, Repr

/-- DataCleaners.cleanProfile (lines 24-69): null in, null out; otherwise a
pure field projection with the name concatenated from first and last name. -/
def cleanProfile (raw? : Option RawProfile) : Option CleanedProfile :=
  match raw? with
  | none => none
  | some raw =>
    some
      { id := raw.id
        publicIdentifier := raw.publicIdentifier
        linkedinUrl := raw.linkedinUrl
        name := jsTrim ((raw.firstName.getD "") ++ " " ++ (raw.lastName.getD ""))
        headline := raw.headline
        about := raw.about
        location := raw.location.bind (fun l => l.linkedinText)
        photo := jsOrOpt raw.photo (raw.profilePicture.bind (fun p => p.url))
        premium := raw.premium
        influencer := raw.influencer
        verified := raw.verified
        openToWork := raw.openToWork
        hiring := raw.hiring
        connections := raw.connectionsCount
        followers := raw.followerCount
        experience := (raw.experience.getD []).map cleanExperience
        education := (raw.education.getD []).map cleanEducation
        skills := (raw.skills.getD []).map (fun s => s.name)
        certifications := (raw.certifications.getD []).map cleanCertification }

/-- A raw profile search hit. -/
structure RawProfileSearch where
  id : Option String := none
  name : Option String := none
  position : Option String := none
  location : Option RawLocationText := none
  linkedinUrl : Option String := none
  publicIdentifier : Option String := none
deriving DecidableEq, Repr

/-- The shaped profile search hit. -/
structure CleanedProfileSearch where
  id : Option String := none
  name : Option String := none
  position : Option String := none
  location : Option String := none
  linkedinUrl : Option String := none
  publicIdentifier : Option String := none
deriving DecidableEq, Repr

/-- DataCleaners.cleanProfileSearchResult (lines 71-81). -/
def cleanProfileSearchResult (raw? : Option RawProfileSearch) : Option CleanedProfileSearch :=
  match raw? with
  | none => none
  | some raw =>
    some
      { id := raw.id
        name := raw.name
        position := raw.position
        location := raw.location.bind (fun l => l.linkedinText)
        linkedinUrl := raw.linkedinUrl
        publicIdentifier := raw.publicIdentifier }

/-- A raw nested parsed-location object. -/
structure RawParsed where
  text : Option String := none
deriving DecidableEq, Repr

/-- A raw company location entry; the headquarter flag defaults to false
when the remote API omits it, matching JS truthiness of the absent field. -/
structure RawLocation where
  headquarter : Bool := false
  parsed : Option RawParsed := none
  city : Option String := none
deriving DecidableEq, Repr

/-- A raw company element, restricted to the fields cleanCompany reads. -/
structure RawCompany where
  id : Option String := none
  universalName : Option String := none
  linkedinUrl : Option String := none
  name : Option String := none
  website : Option String := none
  logo : Option String := none
  description : Option String := none
  employeeCount : Option Nat := none
  followerCount : Option Nat := none
  locations : Option (List RawLocation) := none
deriving DecidableEq, Repr

/-- The shaped company record. -/
structure CleanedCompany where
  id : Option String := none
  universalName : Option String := none
  linkedinUrl : Option String := none
  name : Option String := none
  website : Option String := none
  logo : Option String := none
  description : Option String := none
  employeeCount : Option Nat := none
  followers : Option Nat := none
  headquarter : Option String := none
deriving DecidableEq, Repr

/-- The headquarters pick of cleanCompany (line 85): the first location
flagged as headquarter, else the first location of the list, else nothing. -/
def selectHq (locations : Option (List RawLocation)) : Option RawLocation :=
  match (locations.getD []).find? (fun l => l.headquarter) with
  | some l => some l
  | none => locations.bind List.head?

/-- DataCleaners.cleanCompany (lines 83-98). -/
def cleanCompany (raw? : Option RawCompany) : Option CleanedCompany :=
  match raw? with
  | none => none
  | some raw =>
    let hq := selectHq raw.locations
    some
      { id := raw.id
        universalName := raw.universalName
        linkedinUrl := raw.linkedinUrl
        name := raw.name
        website := raw.website
        logo := raw.logo
        description := raw.description
        employeeCount := raw.employeeCount
        followers := raw.followerCount
        headquarter := jsOrOpt (hq.bind (fun l => l.parsed.bind (fun p => p.text)))
          (hq.bind (fun l => l.city)) }

/-- A raw salary block of a job element. -/
structure RawSalary where
  min : Option Nat := none
  max : Option Nat := none
  currency : Option String := none
  text : Option String := none
deriving DecidableEq, Repr

/-- A raw nested company reference inside a job element. -/
structure RawNamed where
  name : Option String := none
  linkedinUrl : Option String := none
deriving DecidableEq, Repr

/-- A raw job element, restricted to the fields cleanJob reads. -/
structure RawJob where
  id : Option String := none
  title : Option String := none
  linkedinUrl : Option String := none
  url : Option String := none
  jobState : Option String := none
  postedDate : Option String := none
  location : Option RawLocationText := none
  company : Option RawNamed := none
  companyName : Option String := none
  companyLink : Option String := none
  salary : Option RawSalary := none
  employmentType : Option String := none
  workplaceType : Option String := none
  easyApply : Option Bool := none
  descriptionText : Option String := none
deriving DecidableEq, Repr

/-- The shaped job record. -/
structure CleanedJob where
  id : Option String := none
  title : Option String := none
  linkedinUrl : Option String := none
  state : Option String := none
  postedDate : Option String := none
  location : Option String := none
  company : Option String := none
  companyUrl : Option String := none
  salary : Option String := none
  employmentType : Option String := none
  workplaceType : Option String := none
  easyApply : Option Bool := none
  description : Option String := none
deriving DecidableEq, Repr

/-- The salary derivation of cleanJob (line 111): the pre-formatted text
when truthy, else the composed range when min and max are both truthy
(defined and nonzero), else null. -/
def jobSalary (salary? : Option RawSalary) : Option String :=
  let text := salary?.bind (fun s => s.text)
  let composed : Option String :=
    match salary?.bind (fun s => s.min), salary?.bind (fun s => s.max) with
    | some m, some mx =>
      if m != 0 && mx != 0 then
        some (toString m ++ "-" ++ toString mx ++ " "
          ++ ((salary?.bind (fun s => s.currency)).getD ""))
      else none
    | _, _ => none
  jsOrOpt text composed

/-- DataCleaners.cleanJob (lines 100-117). -/
def cleanJob (raw? : Option RawJob) : Option CleanedJob :=
  match raw? with
  | none => none
  | some raw =>
    some
      { id := raw.id
        title := raw.title
        linkedinUrl := jsOrOpt raw.linkedinUrl raw.url
        state := raw.jobState
        postedDate := raw.postedDate
        location := raw.location.bind (fun l => l.linkedinText)
        company := jsOrOpt (raw.company.bind (fun c => c.name)) raw.companyName
        companyUrl := jsOrOpt (raw.company.bind (fun c => c.linkedinUrl)) raw.companyLink
        salary := jobSalary raw.salary
        employmentType := raw.employmentType
        workplaceType := raw.workplaceType
        easyApply := raw.easyApply
        description := raw.descriptionText }

/-- The raw pagination block of a collection envelope. -/
structure PageBlock where
  totalPages : Nat := 0
  totalElements : Nat := 0
  pageNumber : Nat := 0
  pageSize : Nat := 0
  paginationToken : Option String := none
deriving DecidableEq, Repr

/-- The raw JSON envelope of the remote API. -/
structure Envelope (α : Type) where
  element : Option α := none
  elements : Option (List α) := none
  pagination : Option PageBlock := none
deriving DecidableEq, Repr

/-- The effective item cap: args.max_items || d, so an absent or zero
max_items falls back to the operation default.  The model restricts the
argument to the integer type its schema declares. -/
def maxItemsOr (args : Args) (d : Nat) : Nat :=
  match getArg args "max_items" with
  | some (.num n) => if n == 0 then d else n
  | _ => d

/-- The shaping step of getProfile (lines 644-651): clean the element, then
truncate each list-valued sub-field to the effective cap (default 5). -/
def getProfileShape (args : Args) (data : Envelope RawProfile) : Option CleanedProfile :=
  let maxItems := maxItemsOr args 5
  match cleanProfile data.element with
  | none => none
  | some c =>
    some
      { c with
        experience := c.experience.take maxItems
        education := c.education.take maxItems
        skills := c.skills.take maxItems
        certifications := c.certifications.take maxItems }

/-- The shaping step of searchProfiles (lines 674-675): truncate the raw
element array to the effective cap (default 10), then clean each hit.  An
entry of the raw array may itself be null, which the cleaner maps to null. -/
def searchProfilesShape (args : Args) (data : Envelope (Option RawProfileSearch)) :
    List (Option CleanedProfileSearch) :=
  ((data.elements.getD []).take (maxItemsOr args 10)).map cleanProfileSearchResult

/-- The pagination summary of the reply. -/
structure PageSummary where
  page : Nat
  totalPages : Nat
  totalElements : Nat
deriving DecidableEq, Repr

/-- The document formatResponse builds and encodes: the cleaned data plus,
when the envelope carried a pagination block, the three-field summary. -/
structure ShapedOutput (α : Type) where
  data : α
  pagination : Option PageSummary := none
deriving DecidableEq, Repr

/-- The output assembly of formatResponse (lines 605-612): copy the page
number, total pages and total element count out of the raw block and
nothing else. -/
def buildOutput (cleanedData : α) (pagination? : Option PageBlock) : ShapedOutput α :=
  { data := cleanedData
    pagination := pagination?.map (fun p => ⟨p.pageNumber, p.totalPages, p.totalElements⟩) }

/-- The outcome of the filesystem interaction of saveData: either the file
was written at a path, or some step of mkdir and write threw with a message. -/
inductive FsWrite where
  | ok (filepath : String)
  | failed (errText : String)
deriving DecidableEq, Repr

/-- saveData (lines 582-595): on success the written filepath, on any
filesystem exception the caught error rendered into a note string; the
function itself never throws. -/
def saveData (fs : FsWrite) (_dir _toolName : String) : String :=
  match fs with
  | .ok p => p
  | .failed e => "Error saving: " ++ e

/-- The options record of formatResponse. -/
structure FormatOptions where
  saveDir : Option String := none
  toolName : Option String := none
  pagination : Option PageBlock := none

/-- The single text payload returned to the calling agent. -/
structure CallToolResult where
  text : String
deriving DecidableEq, Repr

/-- formatResponse (lines 597-628): build the output document, save it when
a truthy directory and tool name were given, encode it with the TOON
serializer (an opaque parameter here), and append the saved-path note when
saveData returned a nonempty string. -/
def formatResponse (encode : ShapedOutput α → String) (fs : FsWrite) (cleanedData : α)
    (options : FormatOptions) : CallToolResult :=
  let output := buildOutput cleanedData options.pagination
  let savedPath :=
    match options.saveDir, options.toolName with
    | some d, some t => if d != "" && t != "" then saveData fs d t else ""
    | _, _ => ""
  let toonString := encode output
  let text :=
    if savedPath == "" then toonString
    else toonString ++ "\n\n[Cleaned data saved to: " ++ savedPath ++ "]"
  ⟨text⟩

/-- A sample raw profile: the spec scenario element with first name Satya,
last name Nadella and a seven-entry experience array. -/
def sampleProfile : RawProfile :=
  { firstName := some "Satya"
    lastName := some "Nadella"
    experience := some (List.replicate 7 {}) }

/-- A sample raw job whose salary block has a zero minimum: min and max are
both present but the JS truthiness guard on min rejects zero. -/
def sampleZeroMinJob : RawJob :=
  { title := some "Engineer"
    salary := some { min := some 0, max := some 100000, currency := some "USD" } }

/-- A sample salary block carrying only a numeric range. -/
def sampleRangeSalary : RawSalary :=
  { min := some 90000, max := some 120000, currency := some "USD", text := none }

/-- A sample salary block carrying only the pre-formatted text. -/
def sampleTextSalary : RawSalary :=
  { text := some "competitive" }

/-- A sample company location that is not flagged as headquarters. -/
def locAustin : RawLocation := { headquarter := false, city := some "Austin" }

/-- A sample company location flagged as headquarters. -/
def locRedmondHq : RawLocation := { headquarter := true, city := some "Redmond" }

/-- A second sample company location that is not flagged as headquarters. -/
def locParis : RawLocation := { headquarter := false, city := some "Paris" }

/-- A sample company without a locations list. -/
def sampleNoLocCompany : RawCompany := { name := some "Acme", locations := none }

theorem entryLookupVal_sound {kind : EntryKind} {w : Option JSVal} {v : JSVal}
    (h : entryLookupVal kind w = some v) : w = some v := by
  cases kind with
  | tk =>
    cases w with
    | none => simp [entryLookupVal] at h
    | some x =>
      by_cases ht : x.truthy <;> simp [entryLookupVal, ht] at h
      rw [h]
  | dk => exact h

theorem entryLookupVal_none (kind : EntryKind) : entryLookupVal kind none = none := by
  cases kind <;> rfl

theorem lookup_append_pair (k : String) (l1 l2 : Params) :
    List.lookup k (l1 ++ l2) =
      (match List.lookup k l1 with
       | some v => some v
       | none => List.lookup k l2) := by
  induction l1 with
  | nil => simp [List.lookup]
  | cons a t ih =>
    obtain ⟨k1, x⟩ := a
    by_cases h : k = k1
    · simp [List.lookup, h]
    · have hb : (k == k1) = false := by simp [h]
      simp [List.lookup, hb, ih]

theorem lookup_entryFor (kind : EntryKind) (k1 k : String) (v : Option JSVal) :
    List.lookup k (entryFor kind k1 v) =
      (if k = k1 then entryLookupVal kind v else none) := by
  by_cases h : k = k1
  · subst h
    rw [if_pos rfl]
    cases kind <;> cases v
    · simp [entryFor, optEntry, List.lookup, entryLookupVal]
    · rename_i x
      by_cases ht : x.truthy <;>
        simp [entryFor, optEntry, ht, List.lookup, entryLookupVal]
    · simp [entryFor, defEntry, List.lookup, entryLookupVal]
    · rename_i x
      simp [entryFor, defEntry, List.lookup, entryLookupVal]
  · rw [if_neg h]
    have hb : (k == k1) = false := by simp [h]
    cases kind <;> cases v
    · simp [entryFor, optEntry, List.lookup]
    · rename_i x
      by_cases ht : x.truthy <;> simp [entryFor, optEntry, ht, List.lookup, hb]
    · simp [entryFor, defEntry, List.lookup]
    · rename_i x
      simp [entryFor, defEntry, List.lookup, hb]

theorem lookup_buildParams_notMem (spec : List (String × EntryKind)) (args : Args)
    (k : String) (h : ¬ k ∈ spec.map Prod.fst) :
    List.lookup k (buildParams spec args) = none := by
  induction spec with
  | nil => simp [buildParams, List.lookup]
  | cons e rest ih =>
    obtain ⟨k1, kind⟩ := e
    have hk : ¬ k = k1 := by
      intro hkk
      exact h (by simp [hkk])
    have hr : ¬ k ∈ rest.map Prod.fst := by
      intro hkk
      exact h (by simp [hkk])
    rw [buildParams, lookup_append_pair, lookup_entryFor, if_neg hk, ih hr]

theorem lookup_buildParams_char (spec : List (String × EntryKind)) (args : Args)
    (k : String) (h : (spec.map Prod.fst).Nodup) :
    List.lookup k (buildParams spec args) =
      Option.bind (List.lookup k spec) (fun kind => entryLookupVal kind (getArg args k)) := by
  induction spec with
  | nil => simp [buildParams, List.lookup]
  | cons e rest ih =>
    obtain ⟨k1, kind⟩ := e
    have h1 : ¬ k1 ∈ rest.map Prod.fst := by
      simp only [List.map_cons, List.nodup_cons] at h
      exact h.1
    have h2 : (rest.map Prod.fst).Nodup := by
      simp only [List.map_cons, List.nodup_cons] at h
      exact h.2
    rw [buildParams, lookup_append_pair, lookup_entryFor]
    by_cases hk : k = k1
    · subst hk
      rw [if_pos rfl]
      have hrest := lookup_buildParams_notMem rest args k h1
      cases hv : entryLookupVal kind (getArg args k) <;> simp [List.lookup, hv, hrest]
    · have hb : (k == k1) = false := by simp [hk]
      rw [if_neg hk, ih h2]
      simp [List.lookup, hb]

theorem lookup_buildParams_sound (spec : List (String × EntryKind)) (args : Args)
    (k : String) (v : JSVal) (hnd : (spec.map Prod.fst).Nodup)
    (h : List.lookup k (buildParams spec args) = some v) : getArg args k = some v := by
  rw [lookup_buildParams_char spec args k hnd] at h
  cases hs : List.lookup k spec with
  | none => rw [hs] at h; simp at h
  | some kind =>
    rw [hs] at h
    exact entryLookupVal_sound h

theorem lookup_buildParams_absent (spec : List (String × EntryKind)) (args : Args)
    (k : String) (hnd : (spec.map Prod.fst).Nodup) (h : getArg args k = none) :
    List.lookup k (buildParams spec args) = none := by
  rw [lookup_buildParams_char spec args k hnd, h]
  rcases List.lookup k spec with _ | kind
  · rfl
  · exact entryLookupVal_none kind

theorem lookup_buildParams_tk (spec : List (String × EntryKind)) (args : Args)
    (k : String) (v : JSVal) (hnd : (spec.map Prod.fst).Nodup)
    (hs : List.lookup k spec = some .tk)
    (hv : getArg args k = some v) (ht : v.truthy = true) :
    List.lookup k (buildParams spec args) = some v := by
  rw [lookup_buildParams_char spec args k hnd, hs, hv]
  simp [entryLookupVal, ht]

theorem lookup_buildParams_dk (spec : List (String × EntryKind)) (args : Args)
    (k : String) (v : JSVal) (hnd : (spec.map Prod.fst).Nodup)
    (hs : List.lookup k spec = some .dk)
    (hv : getArg args k = some v) :
    List.lookup k (buildParams spec args) = some v := by
  rw [lookup_buildParams_char spec args k hnd, hs, hv]
  simp [entryLookupVal]

theorem truthyOpt_params_false (spec : List (String × EntryKind)) (args : Args)
    (k : String) (hnd : (spec.map Prod.fst).Nodup)
    (h : truthyOpt (getArg args k) = false) :
    truthyOpt (List.lookup k (buildParams spec args)) = false := by
  cases hx : List.lookup k (buildParams spec args) with
  | none => rfl
  | some v =>
    have := lookup_buildParams_sound spec args k v hnd hx
    rw [this] at h
    simpa [truthyOpt] using h

theorem truthyOpt_params_true_tk (spec : List (String × EntryKind)) (args : Args)
    (k : String) (hnd : (spec.map Prod.fst).Nodup)
    (hs : List.lookup k spec = some .tk)
    (h : truthyOpt (getArg args k) = true) :
    truthyOpt (List.lookup k (buildParams spec args)) = true := by
  cases hv : getArg args k with
  | none => rw [hv] at h; simp [truthyOpt] at h
  | some v =>
    rw [hv] at h
    simp only [truthyOpt] at h
    rw [lookup_buildParams_tk spec args k v hnd hs hv h]
    simpa [truthyOpt]

theorem dispatch_get_profile (args : Args) :
    dispatchRequest "get_profile" (some args) = wrapErr (getProfileRequest args) := rfl

theorem dispatch_search_profiles (args : Args) :
    dispatchRequest "search_profiles" (some args) = wrapErr (searchProfilesRequest args) := rfl

theorem dispatch_get_profile_posts (args : Args) :
    dispatchRequest "get_profile_posts" (some args) = wrapErr (getProfilePostsRequest args) := rfl

theorem dispatch_get_profile_comments (args : Args) :
    dispatchRequest "get_profile_comments" (some args) =
      wrapErr (getProfileCommentsRequest args) := rfl

theorem dispatch_get_profile_reactions (args : Args) :
    dispatchRequest "get_profile_reactions" (some args) =
      wrapErr (getProfileReactionsRequest args) := rfl

theorem dispatch_get_company (args : Args) :
    dispatchRequest "get_company" (some args) = wrapErr (getCompanyRequest args) := rfl

theorem dispatch_search_companies (args : Args) :
    dispatchRequest "search_companies" (some args) = wrapErr (searchCompaniesRequest args) := rfl

theorem dispatch_get_company_posts (args : Args) :
    dispatchRequest "get_company_posts" (some args) = wrapErr (getCompanyPostsRequest args) := rfl

theorem dispatch_get_job (args : Args) :
    dispatchRequest "get_job" (some args) = wrapErr (getJobRequest args) := rfl

theorem dispatch_search_jobs (args : Args) :
    dispatchRequest "search_jobs" (some args) = wrapErr (searchJobsRequest args) := rfl

theorem dispatch_get_post (args : Args) :
    dispatchRequest "get_post" (some args) = wrapErr (getPostRequest args) := rfl

theorem dispatch_search_posts (args : Args) :
    dispatchRequest "search_posts" (some args) = wrapErr (searchPostsRequest args) := rfl

theorem dispatch_get_post_comments (args : Args) :
    dispatchRequest "get_post_comments" (some args) = wrapErr (getPostCommentsRequest args) := rfl

theorem dispatch_get_post_reactions (args : Args) :
    dispatchRequest "get_post_reactions" (some args) =
      wrapErr (getPostReactionsRequest args) := rfl

theorem dispatch_get_group (args : Args) :
    dispatchRequest "get_group" (some args) = wrapErr (getGroupRequest args) := rfl

theorem dispatch_search_groups (args : Args) :
    dispatchRequest "search_groups" (some args) = wrapErr (searchGroupsRequest args) := rfl

theorem dispatch_search_geo_id (args : Args) :
    dispatchRequest "search_geo_id" (some args) = wrapErr (searchGeoIdRequest args) := rfl

theorem maxItemsOr_pos (args : Args) (M d : Nat)
    (h : getArg args "max_items" = some (.num M)) (hM : 1 ≤ M) :
    maxItemsOr args d = M := by
  have hb : (M == 0) = false :=
    beq_eq_false_iff_ne.mpr (Nat.one_le_iff_ne_zero.mp hM)
  simp [maxItemsOr, h, hb]

/-- C1 counterexample: dispatching get_profile with none of the disjuncts
present fails with the internal-error code, not the invalid-params code the
claim states; the message does name all three fields. -/
theorem c1_disjunction_counterexample :
    dispatchRequest "get_profile" (some []) =
      .error ⟨.InternalError,
        "HarvestAPI error: At least one of url, publicIdentifier, or profileId is required"⟩
    ∧ ErrorCode.InternalError ≠ ErrorCode.InvalidParams :=
  ⟨rfl, by decide⟩

/-- C1 amended: for every operation with an at-least-one-of disjunction
rule, dispatching with none of the disjuncts truthy fails before the HTTP
call with the internal-error code (the handler throws a plain Error which
the catch-all wraps under the HarvestAPI prefix) and a message naming all
of the fields that would have satisfied the rule, and dispatching with any
one disjunct present and truthy passes validation. -/
theorem c1_disjunction_amended (args : Args) :
    ((truthyOpt (getArg args "url") = false → truthyOpt (getArg args "publicIdentifier") = false →
        truthyOpt (getArg args "profileId") = false →
        dispatchRequest "get_profile" (some args) =
          .error (apiErr "At least one of url, publicIdentifier, or profileId is required"))
      ∧ (truthyOpt (getArg args "url") = true →
          ∃ r, dispatchRequest "get_profile" (some args) = .ok r)
      ∧ (truthyOpt (getArg args "publicIdentifier") = true →
          ∃ r, dispatchRequest "get_profile" (some args) = .ok r)
      ∧ (truthyOpt (getArg args "profileId") = true →
          ∃ r, dispatchRequest "get_profile" (some args) = .ok r))
    ∧ ((truthyOpt (getArg args "profile") = false → truthyOpt (getArg args "profileId") = false →
        truthyOpt (getArg args "profilePublicIdentifier") = false →
        dispatchRequest "get_profile_posts" (some args) =
          .error (apiErr "At least one of profile, profileId, or profilePublicIdentifier is required"))
      ∧ (truthyOpt (getArg args "profile") = true →
          ∃ r, dispatchRequest "get_profile_posts" (some args) = .ok r)
      ∧ (truthyOpt (getArg args "profileId") = true →
          ∃ r, dispatchRequest "get_profile_posts" (some args) = .ok r)
      ∧ (truthyOpt (getArg args "profilePublicIdentifier") = true →
          ∃ r, dispatchRequest "get_profile_posts" (some args) = .ok r))
    ∧ ((truthyOpt (getArg args "profile") = false → truthyOpt (getArg args "profileId") = false →
        dispatchRequest "get_profile_comments" (some args) =
          .error (apiErr "At least one of profile or profileId is required"))
      ∧ (truthyOpt (getArg args "profile") = true →
          ∃ r, dispatchRequest "get_profile_comments" (some args) = .ok r)
      ∧ (truthyOpt (getArg args "profileId") = true →
          ∃ r, dispatchRequest "get_profile_comments" (some args) = .ok r))
    ∧ ((truthyOpt (getArg args "profile") = false → truthyOpt (getArg args "profileId") = false →
        dispatchRequest "get_profile_reactions" (some args) =
          .error (apiErr "At least one of profile or profileId is required"))
      ∧ (truthyOpt (getArg args "profile") = true →
          ∃ r, dispatchRequest "get_profile_reactions" (some args) = .ok r)
      ∧ (truthyOpt (getArg args "profileId") = true →
          ∃ r, dispatchRequest "get_profile_reactions" (some args) = .ok r))
    ∧ ((truthyOpt (getArg args "url") = false → truthyOpt (getArg args "universalName") = false →
        truthyOpt (getArg args "search") = false →
        dispatchRequest "get_company" (some args) =
          .error (apiErr "At least one of url, universalName, or search is required"))
      ∧ (truthyOpt (getArg args "url") = true →
          ∃ r, dispatchRequest "get_company" (some args) = .ok r)
      ∧ (truthyOpt (getArg args "universalName") = true →
          ∃ r, dispatchRequest "get_company" (some args) = .ok r)
      ∧ (truthyOpt (getArg args "search") = true →
          ∃ r, dispatchRequest "get_company" (some args) = .ok r))
    ∧ ((truthyOpt (getArg args "company") = false → truthyOpt (getArg args "companyId") = false →
        truthyOpt (getArg args "companyUniversalName") = false →
        dispatchRequest "get_company_posts" (some args) =
          .error (apiErr "At least one of company, companyId, or companyUniversalName is required"))
      ∧ (truthyOpt (getArg args "company") = true →
          ∃ r, dispatchRequest "get_company_posts" (some args) = .ok r)
      ∧ (truthyOpt (getArg args "companyId") = true →
          ∃ r, dispatchRequest "get_company_posts" (some args) = .ok r)
      ∧ (truthyOpt (getArg args "companyUniversalName") = true →
          ∃ r, dispatchRequest "get_company_posts" (some args) = .ok r))
    ∧ ((truthyOpt (getArg args "jobId") = false → truthyOpt (getArg args "url") = false →
        dispatchRequest "get_job" (some args) =
          .error (apiErr "At least one of jobId or url is required"))
      ∧ (truthyOpt (getArg args "jobId") = true →
          ∃ r, dispatchRequest "get_job" (some args) = .ok r)
      ∧ (truthyOpt (getArg args "url") = true →
          ∃ r, dispatchRequest "get_job" (some args) = .ok r))
    ∧ ((truthyOpt (getArg args "url") = false → truthyOpt (getArg args "groupId") = false →
        dispatchRequest "get_group" (some args) =
          .error (apiErr "At least one of url or groupId is required"))
      ∧ (truthyOpt (getArg args "url") = true →
          ∃ r, dispatchRequest "get_group" (some args) = .ok r)
      ∧ (truthyOpt (getArg args "groupId") = true →
          ∃ r, dispatchRequest "get_group" (some args) = .ok r)) := by
  refine ⟨⟨?_, ?_, ?_, ?_⟩, ⟨?_, ?_, ?_, ?_⟩, ⟨?_, ?_, ?_⟩, ⟨?_, ?_, ?_⟩,
    ⟨?_, ?_, ?_, ?_⟩, ⟨?_, ?_, ?_, ?_⟩, ⟨?_, ?_, ?_⟩, ⟨?_, ?_, ?_⟩⟩
  · intro h1 h2 h3
    have e1 := truthyOpt_params_false getProfileSpec args "url" (by decide) h1
    have e2 := truthyOpt_params_false getProfileSpec args "publicIdentifier" (by decide) h2
    have e3 := truthyOpt_params_false getProfileSpec args "profileId" (by decide) h3
    rw [dispatch_get_profile]
    simp [getProfileRequest, e1, e2, e3, wrapErr]
  · intro h
    have e := truthyOpt_params_true_tk getProfileSpec args "url" (by decide) (by decide) h
    rw [dispatch_get_profile]
    simp [getProfileRequest, e, wrapErr]
  · intro h
    have e := truthyOpt_params_true_tk getProfileSpec args "publicIdentifier" (by decide) (by decide) h
    rw [dispatch_get_profile]
    simp [getProfileRequest, e, wrapErr]
  · intro h
    have e := truthyOpt_params_true_tk getProfileSpec args "profileId" (by decide) (by decide) h
    rw [dispatch_get_profile]
    simp [getProfileRequest, e, wrapErr]
  · intro h1 h2 h3
    have e1 := truthyOpt_params_false getProfilePostsSpec args "profile" (by decide) h1
    have e2 := truthyOpt_params_false getProfilePostsSpec args "profileId" (by decide) h2
    have e3 := truthyOpt_params_false getProfilePostsSpec args "profilePublicIdentifier" (by decide) h3
    rw [dispatch_get_profile_posts]
    simp [getProfilePostsRequest, e1, e2, e3, wrapErr]
  · intro h
    have e := truthyOpt_params_true_tk getProfilePostsSpec args "profile" (by decide) (by decide) h
    rw [dispatch_get_profile_posts]
    simp [getProfilePostsRequest, e, wrapErr]
  · intro h
    have e := truthyOpt_params_true_tk getProfilePostsSpec args "profileId" (by decide) (by decide) h
    rw [dispatch_get_profile_posts]
    simp [getProfilePostsRequest, e, wrapErr]
  · intro h
    have e := truthyOpt_params_true_tk getProfilePostsSpec args "profilePublicIdentifier" (by decide) (by decide) h
    rw [dispatch_get_profile_posts]
    simp [getProfilePostsRequest, e, wrapErr]
  · intro h1 h2
    have e1 := truthyOpt_params_false getProfileCommentsSpec args "profile" (by decide) h1
    have e2 := truthyOpt_params_false getProfileCommentsSpec args "profileId" (by decide) h2
    rw [dispatch_get_profile_comments]
    simp [getProfileCommentsRequest, e1, e2, wrapErr]
  · intro h
    have e := truthyOpt_params_true_tk getProfileCommentsSpec args "profile" (by decide) (by decide) h
    rw [dispatch_get_profile_comments]
    simp [getProfileCommentsRequest, e, wrapErr]
  · intro h
    have e := truthyOpt_params_true_tk getProfileCommentsSpec args "profileId" (by decide) (by decide) h
    rw [dispatch_get_profile_comments]
    simp [getProfileCommentsRequest, e, wrapErr]
  · intro h1 h2
    have e1 := truthyOpt_params_false getProfileReactionsSpec args "profile" (by decide) h1
    have e2 := truthyOpt_params_false getProfileReactionsSpec args "profileId" (by decide) h2
    rw [dispatch_get_profile_reactions]
    simp [getProfileReactionsRequest, e1, e2, wrapErr]
  · intro h
    have e := truthyOpt_params_true_tk getProfileReactionsSpec args "profile" (by decide) (by decide) h
    rw [dispatch_get_profile_reactions]
    simp [getProfileReactionsRequest, e, wrapErr]
  · intro h
    have e := truthyOpt_params_true_tk getProfileReactionsSpec args "profileId" (by decide) (by decide) h
    rw [dispatch_get_profile_reactions]
    simp [getProfileReactionsRequest, e, wrapErr]
  · intro h1 h2 h3
    have e1 := truthyOpt_params_false getCompanySpec args "url" (by decide) h1
    have e2 := truthyOpt_params_false getCompanySpec args "universalName" (by decide) h2
    have e3 := truthyOpt_params_false getCompanySpec args "search" (by decide) h3
    rw [dispatch_get_company]
    simp [getCompanyRequest, e1, e2, e3, wrapErr]
  · intro h
    have e := truthyOpt_params_true_tk getCompanySpec args "url" (by decide) (by decide) h
    rw [dispatch_get_company]
    simp [getCompanyRequest, e, wrapErr]
  · intro h
    have e := truthyOpt_params_true_tk getCompanySpec args "universalName" (by decide) (by decide) h
    rw [dispatch_get_company]
    simp [getCompanyRequest, e, wrapErr]
  · intro h
    have e := truthyOpt_params_true_tk getCompanySpec args "search" (by decide) (by decide) h
    rw [dispatch_get_company]
    simp [getCompanyRequest, e, wrapErr]
  · intro h1 h2 h3
    have e1 := truthyOpt_params_false getCompanyPostsSpec args "company" (by decide) h1
    have e2 := truthyOpt_params_false getCompanyPostsSpec args "companyId" (by decide) h2
    have e3 := truthyOpt_params_false getCompanyPostsSpec args "companyUniversalName" (by decide) h3
    rw [dispatch_get_company_posts]
    simp [getCompanyPostsRequest, e1, e2, e3, wrapErr]
  · intro h
    have e := truthyOpt_params_true_tk getCompanyPostsSpec args "company" (by decide) (by decide) h
    rw [dispatch_get_company_posts]
    simp [getCompanyPostsRequest, e, wrapErr]
  · intro h
    have e := truthyOpt_params_true_tk getCompanyPostsSpec args "companyId" (by decide) (by decide) h
    rw [dispatch_get_company_posts]
    simp [getCompanyPostsRequest, e, wrapErr]
  · intro h
    have e := truthyOpt_params_true_tk getCompanyPostsSpec args "companyUniversalName" (by decide) (by decide) h
    rw [dispatch_get_company_posts]
    simp [getCompanyPostsRequest, e, wrapErr]
  · intro h1 h2
    have e1 := truthyOpt_params_false getJobSpec args "jobId" (by decide) h1
    have e2 := truthyOpt_params_false getJobSpec args "url" (by decide) h2
    rw [dispatch_get_job]
    simp [getJobRequest, e1, e2, wrapErr]
  · intro h
    have e := truthyOpt_params_true_tk getJobSpec args "jobId" (by decide) (by decide) h
    rw [dispatch_get_job]
    simp [getJobRequest, e, wrapErr]
  · intro h
    have e := truthyOpt_params_true_tk getJobSpec args "url" (by decide) (by decide) h
    rw [dispatch_get_job]
    simp [getJobRequest, e, wrapErr]
  · intro h1 h2
    have e1 := truthyOpt_params_false getGroupSpec args "url" (by decide) h1
    have e2 := truthyOpt_params_false getGroupSpec args "groupId" (by decide) h2
    rw [dispatch_get_group]
    simp [getGroupRequest, e1, e2, wrapErr]
  · intro h
    have e := truthyOpt_params_true_tk getGroupSpec args "url" (by decide) (by decide) h
    rw [dispatch_get_group]
    simp [getGroupRequest, e, wrapErr]
  · intro h
    have e := truthyOpt_params_true_tk getGroupSpec args "groupId" (by decide) (by decide) h
    rw [dispatch_get_group]
    simp [getGroupRequest, e, wrapErr]

/-- C1 witness: the empty argument object is rejected by get_profile with
the wrapped message, and a lone publicIdentifier passes validation. -/
theorem c1_disjunction_witness :
    dispatchRequest "get_profile" (some []) =
      .error (apiErr "At least one of url, publicIdentifier, or profileId is required")
    ∧ ∃ r, dispatchRequest "get_profile"
        (some [("publicIdentifier", JSVal.str "satyanadella")]) = .ok r :=
  ⟨(c1_disjunction_amended []).1.1 rfl rfl rfl,
   (c1_disjunction_amended [("publicIdentifier", JSVal.str "satyanadella")]).1.2.2.1 (by decide)⟩

/-- C2 counterexample: search_groups with no arguments reaches the HTTP
request with an empty query instead of failing validation, and an empty
search string is forwarded verbatim by search_profiles. -/
theorem c2_search_counterexample :
    dispatchRequest "search_groups" (some []) = .ok ⟨"/group-search", []⟩
    ∧ dispatchRequest "search_profiles" (some [("search", JSVal.str "")]) =
        .ok ⟨"/profile-search", [("search", JSVal.str "")]⟩ :=
  ⟨rfl, rfl⟩

/-- C2 amended: no search-type operation validates its search text - every
dispatch reaches the HTTP request - and a supplied non-empty search text is
forwarded unmodified under the query-parameter name search. -/
theorem c2_search_amended (args : Args) (s : String) :
    ((∃ r, dispatchRequest "search_profiles" (some args) = .ok r)
      ∧ (getArg args "search" = some (.str s) →
          ∃ r, dispatchRequest "search_profiles" (some args) = .ok r
            ∧ List.lookup "search" r.params = some (.str s)))
    ∧ ((∃ r, dispatchRequest "search_companies" (some args) = .ok r)
      ∧ (getArg args "search" = some (.str s) →
          ∃ r, dispatchRequest "search_companies" (some args) = .ok r
            ∧ List.lookup "search" r.params = some (.str s)))
    ∧ ((∃ r, dispatchRequest "search_posts" (some args) = .ok r)
      ∧ (getArg args "search" = some (.str s) → s ≠ "" →
          ∃ r, dispatchRequest "search_posts" (some args) = .ok r
            ∧ List.lookup "search" r.params = some (.str s)))
    ∧ ((∃ r, dispatchRequest "search_groups" (some args) = .ok r)
      ∧ (getArg args "search" = some (.str s) →
          ∃ r, dispatchRequest "search_groups" (some args) = .ok r
            ∧ List.lookup "search" r.params = some (.str s)))
    ∧ ((∃ r, dispatchRequest "search_geo_id" (some args) = .ok r)
      ∧ (getArg args "search" = some (.str s) →
          ∃ r, dispatchRequest "search_geo_id" (some args) = .ok r
            ∧ List.lookup "search" r.params = some (.str s)))
    ∧ ((∃ r, dispatchRequest "search_jobs" (some args) = .ok r)
      ∧ (getArg args "search" = some (.str s) → s ≠ "" →
          ∃ r, dispatchRequest "search_jobs" (some args) = .ok r
            ∧ List.lookup "search" r.params = some (.str s))) := by
  refine ⟨⟨⟨_, rfl⟩, ?_⟩, ⟨⟨_, rfl⟩, ?_⟩, ⟨⟨_, rfl⟩, ?_⟩, ⟨⟨_, rfl⟩, ?_⟩,
    ⟨⟨_, rfl⟩, ?_⟩, ⟨⟨_, rfl⟩, ?_⟩⟩
  · intro hget
    exact ⟨_, rfl,
      lookup_buildParams_dk searchProfilesSpec args "search" (.str s) (by decide) (by decide) hget⟩
  · intro hget
    exact ⟨_, rfl,
      lookup_buildParams_dk searchCompaniesSpec args "search" (.str s) (by decide) (by decide) hget⟩
  · intro hget hs
    have ht : (JSVal.str s).truthy = true := by
      simpa [JSVal.truthy] using bne_iff_ne.mpr hs
    exact ⟨_, rfl,
      lookup_buildParams_tk searchPostsSpec args "search" (.str s) (by decide) (by decide) hget ht⟩
  · intro hget
    exact ⟨_, rfl,
      lookup_buildParams_dk searchGroupsSpec args "search" (.str s) (by decide) (by decide) hget⟩
  · intro hget
    exact ⟨_, rfl,
      lookup_buildParams_dk searchGeoIdSpec args "search" (.str s) (by decide) (by decide) hget⟩
  · intro hget hs
    have ht : (JSVal.str s).truthy = true := by
      simpa [JSVal.truthy] using bne_iff_ne.mpr hs
    exact ⟨_, rfl,
      lookup_buildParams_tk searchJobsSpec args "search" (.str s) (by decide) (by decide) hget ht⟩

/-- C2 witness: a non-empty search text is carried unmodified by
search_groups. -/
theorem c2_search_witness :
    ∃ r, dispatchRequest "search_groups" (some [("search", JSVal.str "AI startups")]) = .ok r
      ∧ List.lookup "search" r.params = some (.str "AI startups") :=
  (c2_search_amended [("search", JSVal.str "AI startups")] "AI startups").2.2.2.1.2 (by decide)

/-- C3: the three single-entity-by-url operations perform no runtime check
of their url or post argument - a dispatch with no arguments proceeds to
the HTTP request with an empty query instead of failing validation, even
though the tool catalog declares the field required and the test suite
names the intended error. -/
theorem c3_post_required_behavior :
    dispatchRequest "get_post_comments" (some []) = .ok ⟨"/post-comments", []⟩
    ∧ dispatchRequest "get_post" (some []) = .ok ⟨"/post", []⟩
    ∧ dispatchRequest "get_post_reactions" (some []) = .ok ⟨"/post-reactions", []⟩ :=
  ⟨rfl, rfl, rfl⟩

/-- C4 counterexample: with a requested max of zero and one raw element the
shaped list has one entry, not min one zero, because the zero is replaced
by the default cap. -/
theorem c4_bounding_counterexample :
    (searchProfilesShape [("max_items", JSVal.num 0)] { elements := some [none] }).length ≠
      min 1 0
    ∧ (searchProfilesShape [("max_items", JSVal.num 0)] { elements := some [none] }).length = 1 :=
  ⟨by decide, by decide⟩

/-- C4 amended: for every raw element list of length N and every requested
max-items value M at least one, the shaping step produces exactly min N M
items in the original relative order - the first-M prefix, no re-sorting -
both for the search result array and for the profile sub-lists; the
seven-entry experience scenario under the default cap of five yields the
name Satya Nadella and an experience list of length five.  The requested
value zero is excluded: the logical-or default replaces it (see C10). -/
theorem c4_bounding_amended :
    (∀ (args : Args) (M : Nat) (xs : List (Option RawProfileSearch)),
      getArg args "max_items" = some (.num M) → 1 ≤ M →
      searchProfilesShape args { elements := some xs } =
        (xs.map cleanProfileSearchResult).take M
      ∧ (searchProfilesShape args { elements := some xs }).length = min xs.length M)
    ∧ (∀ (args : Args) (M : Nat) (raw : RawProfile),
      getArg args "max_items" = some (.num M) → 1 ≤ M →
      (getProfileShape args { element := some raw }).map (fun c => c.experience) =
        some (((raw.experience.getD []).map cleanExperience).take M)
      ∧ (getProfileShape args { element := some raw }).map (fun c => c.experience.length) =
        some (min ((raw.experience.getD []).length) M))
    ∧ ((getProfileShape [] { element := some sampleProfile }).map
        (fun c => (c.name, c.experience.length)) = some ("Satya Nadella", 5)) := by
  refine ⟨?_, ?_, ?_⟩
  · intro args M xs h hM
    have hmax := maxItemsOr_pos args M 10 h hM
    constructor
    · simp [searchProfilesShape, hmax, List.map_take]
    · simp [searchProfilesShape, hmax, List.length_take, Nat.min_comm]
  · intro args M raw h hM
    have hmax := maxItemsOr_pos args M 5 h hM
    constructor
    · simp [getProfileShape, hmax, cleanProfile]
    · simp [getProfileShape, hmax, cleanProfile, List.length_take, Nat.min_comm]
  · decide

/-- C4 witness: four raw hits bounded by a requested max of three give the
three-element prefix. -/
theorem c4_bounding_witness :
    searchProfilesShape [("max_items", JSVal.num 3)] { elements := some (List.replicate 4 none) } =
      ((List.replicate 4 none).map cleanProfileSearchResult).take 3 :=
  ((c4_bounding_amended.1 [("max_items", JSVal.num 3)] 3 (List.replicate 4 none))
    (by decide) (by decide)).1

/-- C5 counterexample: a supplied but falsy argument - under10Applicants
set to false - is present in the invocation yet never reaches the outbound
query of search_jobs, so not every supplied argument is forwarded. -/
theorem c5_assembly_counterexample :
    getArg [("under10Applicants", JSVal.bool false)] "under10Applicants" =
      some (JSVal.bool false)
    ∧ List.lookup "under10Applicants"
        (searchJobsParams [("under10Applicants", JSVal.bool false)]) = none :=
  ⟨rfl, rfl⟩

/-- C5 amended: the outbound query contains only arguments the caller
supplied, forwarded unmodified under the same name; an absent argument is
never sent with any placeholder; a supplied truthy argument with a
truthy-guarded key is always forwarded; and easyApply is forwarded whenever
it is defined, even when false.  Shown for searchJobs and getProfile, the
two assemblies the claim cites. -/
theorem c5_assembly_amended (args : Args) (k : String) (v : JSVal) :
    (List.lookup k (searchJobsParams args) = some v → getArg args k = some v)
    ∧ (getArg args k = none → List.lookup k (searchJobsParams args) = none)
    ∧ (List.lookup k searchJobsSpec = some .tk → getArg args k = some v → v.truthy = true →
        List.lookup k (searchJobsParams args) = some v)
    ∧ (getArg args "easyApply" = some v →
        List.lookup "easyApply" (searchJobsParams args) = some v)
    ∧ (List.lookup k (buildParams getProfileSpec args) = some v → getArg args k = some v)
    ∧ (getArg args k = none → List.lookup k (buildParams getProfileSpec args) = none)
    ∧ (List.lookup k getProfileSpec = some .tk → getArg args k = some v → v.truthy = true →
        List.lookup k (buildParams getProfileSpec args) = some v) := by
  refine ⟨?_, ?_, ?_, ?_, ?_, ?_, ?_⟩
  · exact fun h => lookup_buildParams_sound searchJobsSpec args k v (by decide) h
  · exact fun h => lookup_buildParams_absent searchJobsSpec args k (by decide) h
  · exact fun hs hv ht => lookup_buildParams_tk searchJobsSpec args k v (by decide) hs hv ht
  · exact fun h => lookup_buildParams_dk searchJobsSpec args "easyApply" v (by decide) (by decide) h
  · exact fun h => lookup_buildParams_sound getProfileSpec args k v (by decide) h
  · exact fun h => lookup_buildParams_absent getProfileSpec args k (by decide) h
  · exact fun hs hv ht => lookup_buildParams_tk getProfileSpec args k v (by decide) hs hv ht

/-- C5 witness: a supplied salary filter reaches the search_jobs query
unmodified. -/
theorem c5_assembly_witness :
    List.lookup "salary" (searchJobsParams [("salary", JSVal.str "100k+")]) =
      some (JSVal.str "100k+") :=
  (c5_assembly_amended [("salary", JSVal.str "100k+")] "salary" (JSVal.str "100k+")).2.2.1
    (by decide) (by decide) (by decide)

/-- C6: when persistence is requested and the filesystem write fails, the
call still returns normally with the full encoded payload first in the
reply text, followed by an appended note carrying the save failure; the
failure never aborts the call. -/
theorem c6_persistence_failure {α : Type} (encode : ShapedOutput α → String)
    (cleanedData : α) (d t e : String) (pag : Option PageBlock)
    (hd : d ≠ "") (ht : t ≠ "") :
    (formatResponse encode (.failed e) cleanedData ⟨some d, some t, pag⟩).text =
      encode (buildOutput cleanedData pag) ++ "\n\n[Cleaned data saved to: "
        ++ saveData (.failed e) d t ++ "]"
    ∧ saveData (.failed e) d t = "Error saving: " ++ e := by
  have hd' : (d != "") = true := bne_iff_ne.mpr hd
  have ht' : (t != "") = true := bne_iff_ne.mpr ht
  have hne : (saveData (.failed e) d t == "") = false := by
    apply beq_eq_false_iff_ne.mpr
    intro hh
    have hlen := congrArg String.length hh
    simp only [saveData, String.length_append] at hlen
    rw [show ("Error saving: ").length = 14 from rfl,
      show ("" : String).length = 0 from rfl] at hlen
    omega
  constructor
  · simp [formatResponse, hd', ht', hne]
  · rfl

/-- C6 witness: an unwritable directory still yields the payload plus the
failure note. -/
theorem c6_persistence_witness :
    (formatResponse (fun _ => "payload") (.failed "EACCES") (some 1)
        ⟨some "/data", some "get_profile", none⟩).text =
      "payload" ++ "\n\n[Cleaned data saved to: "
        ++ saveData (.failed "EACCES") "/data" "get_profile" ++ "]" :=
  (c6_persistence_failure (fun _ => "payload") (some 1) "/data" "get_profile" "EACCES" none
    (by decide) (by decide)).1

/-- C7: the company projection picks the location flagged as headquarter,
falls back to the first location when none is flagged, and leaves the
headquarter output field absent when the locations list is absent or
empty; the shaped field is derived from the selected entry. -/
theorem c7_headquarter (raw : RawCompany) (ls : List RawLocation) (l : RawLocation) :
    (ls.find? (fun x => x.headquarter) = some l → selectHq (some ls) = some l)
    ∧ ((∀ x ∈ ls, x.headquarter = false) → selectHq (some ls) = ls.head?)
    ∧ (raw.locations = none ∨ raw.locations = some [] →
        (cleanCompany (some raw)).map (fun c => c.headquarter) = some none)
    ∧ (cleanCompany (some raw)).map (fun c => c.headquarter) =
        some (jsOrOpt
          ((selectHq raw.locations).bind (fun x => x.parsed.bind (fun p => p.text)))
          ((selectHq raw.locations).bind (fun x => x.city))) := by
  refine ⟨?_, ?_, ?_, rfl⟩
  · intro h
    simp [selectHq, h]
  · intro h
    have hf : ls.find? (fun x => x.headquarter) = none :=
      List.find?_eq_none.mpr (fun x hx => by simp [h x hx])
    simp [selectHq, hf]
  · intro h
    rcases h with h | h <;> simp [cleanCompany, selectHq, h, jsOrOpt]

/-- C7 witness: the flagged location wins over an earlier unflagged one,
the first location is the fallback, and an absent list leaves the field
absent. -/
theorem c7_headquarter_witness :
    selectHq (some [locAustin, locRedmondHq]) = some locRedmondHq
    ∧ selectHq (some [locAustin, locParis]) = some locAustin
    ∧ (cleanCompany (some sampleNoLocCompany)).map (fun c => c.headquarter) = some none := by
  refine ⟨?_, ?_, ?_⟩
  · exact (c7_headquarter {} [locAustin, locRedmondHq] locRedmondHq).1 (by decide)
  · exact (c7_headquarter {} [locAustin, locParis] locAustin).2.1 (by decide)
  · exact (c7_headquarter sampleNoLocCompany [] {}).2.2.1 (Or.inl rfl)

/-- C8 counterexample: a salary block with min zero and max present but no
text yields a null shaped salary, although the claim requires the composed
min-max-currency string whenever min and max are present. -/
theorem c8_salary_counterexample :
    sampleZeroMinJob.salary =
      some { min := some 0, max := some 100000, currency := some "USD", text := none }
    ∧ (cleanJob (some sampleZeroMinJob)).map (fun j => j.salary) = some none :=
  ⟨rfl, rfl⟩

/-- C8 amended: the shaped salary comes from the pre-formatted text when it
is non-empty; otherwise, when min and max are both present and nonzero, it
is the composed min-max-currency string; otherwise it is null - JS
truthiness makes an empty text fall through and a zero bound count as
absent. -/
theorem c8_salary_amended (s : RawSalary) (t : String) (m mx : Nat) (raw : RawJob) :
    (s.text = some t → t ≠ "" → jobSalary (some s) = some t)
    ∧ ((s.text = none ∨ s.text = some "") → s.min = some m → m ≠ 0 →
        s.max = some mx → mx ≠ 0 →
        jobSalary (some s) =
          some (toString m ++ "-" ++ toString mx ++ " " ++ s.currency.getD ""))
    ∧ ((s.text = none ∨ s.text = some "") →
        (s.min.getD 0 = 0 ∨ s.max.getD 0 = 0) →
        jobSalary (some s) = none)
    ∧ jobSalary none = none
    ∧ (cleanJob (some raw)).map (fun j => j.salary) = some (jobSalary raw.salary) := by
  refine ⟨?_, ?_, ?_, rfl, rfl⟩
  · intro h hne
    have hb : (t == "") = false := beq_eq_false_iff_ne.mpr hne
    simp [jobSalary, h, jsOrOpt, hb]
  · intro htext hm hm0 hmx hmx0
    have hb1 : (m != 0) = true := bne_iff_ne.mpr hm0
    have hb2 : (mx != 0) = true := bne_iff_ne.mpr hmx0
    rcases htext with h | h <;> simp [jobSalary, h, hm, hmx, hb1, hb2, jsOrOpt]
  · intro htext h2
    rcases htext with h | h <;>
      cases hmin : s.min <;> cases hmax : s.max <;>
        simp [jobSalary, h, hmin, hmax, jsOrOpt] <;>
        · rw [hmin, hmax] at h2
          simp at h2
          rcases h2 with h3 | h3 <;> simp [h3]

/-- C8 witness: a pure range block composes the string, a text block is
passed through. -/
theorem c8_salary_witness :
    jobSalary (some sampleRangeSalary) = some "90000-120000 USD"
    ∧ jobSalary (some sampleTextSalary) = some "competitive" := by
  constructor
  · have h := (c8_salary_amended sampleRangeSalary "x" 90000 120000 {}).2.1
      (Or.inl rfl) rfl (by decide) rfl (by decide)
    simpa using h
  · exact (c8_salary_amended sampleTextSalary "competitive" 0 0 {}).1 rfl (by decide)

/-- C9: a pagination block in the raw envelope yields a summary of exactly
the page number, total pages and total element count; the pagination token
and page size never influence the output; no block yields no summary; and
the reply text encodes exactly this output document. -/
theorem c9_pagination {α : Type} (d : α) (p : PageBlock) (enc : ShapedOutput α → String)
    (fs : FsWrite) :
    (buildOutput d (some p)).pagination = some ⟨p.pageNumber, p.totalPages, p.totalElements⟩
    ∧ (buildOutput d (none : Option PageBlock)).pagination = none
    ∧ (∀ tok sz, buildOutput d (some { p with paginationToken := tok, pageSize := sz }) =
        buildOutput d (some p))
    ∧ (formatResponse enc fs d ⟨none, none, some p⟩).text = enc (buildOutput d (some p)) :=
  ⟨rfl, rfl, fun _ _ => rfl, rfl⟩

/-- C10: a caller-supplied max_items of zero is falsy, so the logical-or
default replaces it - the profile sub-list default five and the listing
default ten apply instead of an empty bound. -/
theorem c10_max_items_zero (args : Args)
    (h : getArg args "max_items" = some (JSVal.num 0)) :
    maxItemsOr args 5 = 5 ∧ maxItemsOr args 10 = 10
    ∧ (∀ xs : List (Option RawProfileSearch),
        (searchProfilesShape args { elements := some xs }).length = min xs.length 10)
    ∧ (getProfileShape args { element := some sampleProfile }).map
        (fun c => c.experience.length) = some 5 := by
  have h5 : maxItemsOr args 5 = 5 := by simp [maxItemsOr, h]
  have h10 : maxItemsOr args 10 = 10 := by simp [maxItemsOr, h]
  refine ⟨h5, h10, ?_, ?_⟩
  · intro xs
    simp [searchProfilesShape, h10, List.length_take, Nat.min_comm]
  · simp [getProfileShape, h5, cleanProfile, sampleProfile]

/-- C10 witness: max_items zero leaves the getProfile experience bound at
five. -/
theorem c10_max_items_zero_witness :
    maxItemsOr [("max_items", JSVal.num 0)] 5 = 5
    ∧ (getProfileShape [("max_items", JSVal.num 0)] { element := some sampleProfile }).map
        (fun c => c.experience.length) = some 5 :=
  ⟨(c10_max_items_zero [("max_items", JSVal.num 0)] rfl).1,
   (c10_max_items_zero [("max_items", JSVal.num 0)] rfl).2.2.2⟩

end LinkedInMcp
